import Mathlib

/-!
Shallow embedding of the Wordbomb bot core (src/main.py and
src/generate_starters.py) for checking the natural-language spec.

Conventions of the embedding:
- the dictionary `Data.words` (loaded from words.txt at startup) is a
  parameter `words : List String`; Python set membership becomes list
  membership;
- `random.choice` and `random.randint` are oracles: a `choice` function
  parameter, respectively an explicit `gameId` argument;
- `nextcord.Message` values are represented by the only field the core
  reads, their text `content`; all transport calls (send/edit/delete/react)
  are effect-free in the model;
- the process-wide dict `games` (host id -> game) is an association list
  `List (Nat × Game)`; dict insertion of a fresh key is an append, `del`
  is a filter, `in`/indexing is `List.lookup`;
- the per-turn wait (main.py lines 149-157), the single suspension region
  of a turn, is abstracted by `TurnInput`: `.answered msg` means the
  current player's message `msg` arrived before the timer expired;
  `.timeout late` means the timer expired (line 152 fired), with
  `late = some msg` when a message from the current player arrived between
  the expiry and the `if Game.responded` check at line 158 (the awaits at
  lines 150, 154, 155 are suspension points where `on_message` can run),
  and `late = none` otherwise;
- Python runtime errors that the source can actually raise on these paths
  (ZeroDivisionError at line 187, IndexError at line 145, KeyError at
  line 358) are made explicit with `Except`/`Option`.
-/

namespace Wordbomb

/-- Player record, from `Player.__init__` (main.py lines 38-41): identity,
status string ("Owner" for the creator, "Player" for a joiner), and
`hearts` initialized to 2.  `hearts` is an `Int` because the source only
ever decrements it with no lower bound. -/
structure Player where
  id : Nat
  status : String
  hearts : Int
deriving DecidableEq, Repr

/-- Constructor `Player(id, status="Player")`. -/
def Player.new (id : Nat) (status : String) : Player :=
  { id := id, status := status, hearts := 2 }

/-- Game state, from `wordbombGame.__init__` (main.py lines 68-93).
`response` holds the content of the stored `nextcord.Message`, if any.
The per-instance dicts `timeStageRelation` and `stageStartersRelation`
are pure functions of the stage (and the word list) and are modelled as
the top-level functions of the same names. -/
structure Game where
  userID : Nat
  channelID : Nat
  gameID : Nat
  stage : Nat
  plays : Nat
  countdown : Int
  currentPlayerIndex : Nat
  timeRemaining : Int
  players : List Player
  used_words : List String
  currentStarter : String
  running : Bool
  responded : Bool
  singleplayer : Bool
  response : Option String
deriving DecidableEq, Repr

/-- Python `str.lower()`: lowercase every character.  (Lean's own
`String.toLower` is defined by well-founded recursion over byte positions,
which the kernel cannot evaluate; this character-list definition is the
direct model of the Python operation.) -/
def pyLower (s : String) : String :=
  ⟨s.data.map Char.toLower⟩

/-- Python `str.startswith(pre)`: `pre`'s characters are a prefix of the
string's characters. -/
def pyStartsWith (s pre : String) : Bool :=
  pre.data.isPrefixOf s.data

/-- Python slicing `s[:n]`: the first `n` characters (all of them when the
string is shorter). -/
def pyTake (s : String) (n : Nat) : String :=
  ⟨s.data.take n⟩

/-- Modelled from the spec: `Data.easy_starters` is referenced by the
session constructor (main.py line 80) but its definition is missing from
the source (the `Data` class only loads `words`).  Per spec section 4.1 and
section 3, the length-1 prefix table lists the first character of every
word of length at least 1, so `easy_starters` is that table. -/
def easy_starters (words : List String) : List String :=
  words.filterMap (fun w => w.toList.head?.map (fun c => String.mk [c]))

/-- The dict comprehension at main.py lines 91-93:
`{i: [word[i - 1] for word in Data.words if len(word) > i - 1] for i in range(1, 8)}`.
For stage `i` this is the character at index `i - 1` (a one-character
string) of every word longer than `i - 1` characters. -/
def stageStartersRelation (words : List String) (i : Nat) : List String :=
  words.filterMap (fun w => ((w.toList.drop (i - 1)).head?).map (fun c => String.mk [c]))

/-- The dict comprehension in src/generate_starters.py:
`{i-1: [word[:i-1] for word in words if len(word[:i-1]) > 0] for i in range(1, 8)}`,
i.e. for key `n = i - 1` the first `n` characters of every word, kept when
nonempty.  (Its output file starters.txt is never read by main.py.) -/
def genStartersDic (words : List String) (n : Nat) : List String :=
  (words.map (fun w => pyTake w n)).filter (fun p => decide (0 < p.length))

/-- The dict at main.py line 90: `{1: 8, 2: 7, 3: 6, 4: 5, 5: 4, 6: 3, 7: 2}`.
Other keys raise KeyError in Python; they are unreachable because the
stage is always `min 7 (plays / 10 + 1)`, so the default is arbitrary. -/
def timeStageRelation : Nat → Int
  | 1 => 8
  | 2 => 7
  | 3 => 6
  | 4 => 5
  | 5 => 4
  | 6 => 3
  | 7 => 2
  | _ => 0

/-- `wordbombGame.__init__(userID, channelID)` (main.py lines 68-93).
`gameId` stands for `random.randint(1, 999999)` and `choice` for
`random.choice`; the constructor draws `currentStarter` from
`easy_starters` (see that definition's note on the missing source). -/
def wordbombGame.init (words : List String) (choice : List String → String)
    (userID channelID gameID : Nat) : Game where
  userID := userID
  channelID := channelID
  gameID := gameID
  stage := 1
  plays := 0
  countdown := 10
  currentPlayerIndex := 0
  timeRemaining := 8
  players := [Player.new userID "Owner"]
  used_words := []
  currentStarter := choice (easy_starters words)
  running := true
  responded := false
  singleplayer := false
  response := none

/-- The two failure notices of `userGameInstanceCreation`
(main.py lines 256-260), mapped to the spec's `RegistryError` taxonomy. -/
inductive CreateError where
  | roomOccupied
  | hostAlreadyHosting
deriving DecidableEq, Repr

/-- `userGameInstanceCreation` (main.py lines 246-277), restricted to its
state-relevant part: the room-occupancy scan (line 256), the
already-hosting check (line 259), and on success the construction and
registration `games[interaction.user.id] = wordbombGame(...)` (line 262).
Returns the outcome together with the registry after the call. -/
def createGame (words : List String) (choice : List String → String)
    (reg : List (Nat × Game)) (userId channelId gameId : Nat) :
    Except CreateError Game × List (Nat × Game) :=
  if reg.any (fun e => e.2.channelID == channelId) then
    (.error .roomOccupied, reg)
  else if (reg.lookup userId).isSome then
    (.error .hostAlreadyHosting, reg)
  else
    let g := wordbombGame.init words choice userId channelId gameId
    (.ok g, reg ++ [(userId, g)])

/-- `gameOver` (main.py lines 95-113): posts the statistics embed and
deletes the game messages (transport effects, not modelled) and sets
`Game.running = False` (line 113).  It does not touch the `games`
registry. -/
def gameOver (g : Game) : Game :=
  { g with running := false }

/-- Outcomes of `joinGame` for a located game (main.py lines 231-241). -/
inductive JoinResult where
  | alreadyJoined
  | joined
deriving DecidableEq, Repr

/-- `joinGame` (main.py lines 221-244) for the game whose `gameID` matched
the button's custom id: if the clicking user is already in `players` the
join is refused (lines 231-234), otherwise `Player(interaction.user.id)`
is appended (line 236).  No phase or `running` condition is consulted. -/
def joinGameStep (g : Game) (userId : Nat) : Game × JoinResult :=
  if g.players.any (fun p => p.id == userId) then
    (g, .alreadyJoined)
  else
    ({ g with players := g.players ++ [Player.new userId "Player"] }, .joined)

/-- Outcomes of `startGameCountdown` for a located game
(main.py lines 200-218), mapped to the spec's result names. -/
inductive CountdownResult where
  | alreadyStarted
  | notHost
  | started
deriving DecidableEq, Repr

/-- `startGameCountdown` (main.py lines 190-219) for the game whose
`f"{gameID}###"` custom id matched, up to the hand-off to `startGame`:
first `singleplayer` is set when the roster has exactly one player
(lines 200-201), then the guard `if game.stage == 1` replies
"Game already started" (lines 202-203), then the host check
(lines 204-205); otherwise the five countdown ticks run
(lines 212-216, `countdown` drops by 5) and `startGame` is entered. -/
def startGameCountdownStep (g : Game) (requesterId : Nat) : Game × CountdownResult :=
  let g1 := if g.players.length == 1 then { g with singleplayer := true } else g
  if g1.stage == 1 then
    (g1, .alreadyStarted)
  else if requesterId != g1.userID then
    (g1, .notHost)
  else
    ({ g1 with countdown := g1.countdown - 5 }, .started)

/-- `on_message` (main.py lines 298-311) for one game of the registry:
when the message's channel is the game's channel, its author is in
`players`, and the author is the entry at `currentPlayerIndex`, the game
stores `responded = True` and the message as `response` — with no regard
to any phase or to an already-stored response.  (If `currentPlayerIndex`
were out of range Python would raise IndexError and leave the game
unchanged; that is the `none` branch.) -/
def onMessageGame (g : Game) (channelId authorId : Nat) (content : String) : Game :=
  if g.channelID == channelId then
    if g.players.any (fun p => p.id == authorId) then
      match g.players[g.currentPlayerIndex]? with
      | some p =>
        if p.id == authorId then
          { g with responded := true, response := some content }
        else g
      | none => g
    else g
  else g

/-- `List.modify` written out: replaces the element at index `i` by its
image under `f`, used for the in-place `hearts` decrements of
`Game.players[Game.currentPlayerIndex]`. -/
def modifyIdx : List α → Nat → (α → α) → List α
  | [], _, _ => []
  | a :: as, 0, f => f a :: as
  | a :: as, n + 1, f => a :: modifyIdx as n f

/-- `Game.players[Game.currentPlayerIndex].hearts -= 1`
(main.py lines 153 and 165). -/
def decCurrentHearts (g : Game) : Game :=
  { g with players :=
      modifyIdx g.players g.currentPlayerIndex (fun p => { p with hearts := p.hearts - 1 }) }

/-- The rejection condition at main.py lines 160-163, on the lowercased
content `w`: too short, already used, wrong starter, or not a dictionary
word. -/
def answerRejected (words : List String) (g : Game) (w : String) : Bool :=
  decide (w.length < 2) || g.used_words.contains w
    || !(pyStartsWith w (pyLower g.currentStarter)) || !(words.contains w)

/-- The answered path of a turn, main.py lines 158-170: lowercase the
stored message content; on rejection the current player loses a heart
(line 165); on acceptance the word joins `used_words` and `plays` is
incremented (lines 169-170). -/
def resolveAnswer (words : List String) (g : Game) (msg : String) : Game :=
  let w := pyLower msg
  if answerRejected words g w then
    decCurrentHearts g
  else
    { g with used_words := w :: g.used_words, plays := g.plays + 1 }

/-- How the single per-turn wait of `startGame` (main.py lines 149-157)
resolved; see the module comment. -/
inductive TurnInput where
  | answered (msg : String)
  | timeout (late : Option String)
deriving DecidableEq, Repr

/-- Python runtime errors reachable in `startGame`:
`(idx + 1) % len([])` at line 187 raises ZeroDivisionError, and
`Game.players[Game.currentPlayerIndex]` at line 145 raises IndexError
when the index is out of range. -/
inductive RunError where
  | zeroDiv
  | indexError
deriving DecidableEq, Repr

/-- One iteration of the `while Game.running` body of `startGame`
(main.py lines 140-188), given how the wait resolved:
empty-roster finalization (lines 141-143); the read of the current player
for the announcement (line 145); the timeout heart loss (line 153) and,
when a late message arrived, the answered path on top of it, else just the
answered path (lines 158-170); the elimination step with its wrap-to-zero
re-indexing (lines 172-177); the win check (lines 179-182, finalizes via
`gameOver` and breaks); and the stage/turn advance (lines 184-188), whose
modulus raises ZeroDivisionError when the roster has emptied. -/
def loopIter (words : List String) (choice : List String → String)
    (g : Game) (input : TurnInput) : Except RunError Game :=
  if g.players.isEmpty then .ok (gameOver g)
  else
    match g.players[g.currentPlayerIndex]? with
    | none => .error .indexError
    | some _ =>
      let g1 :=
        match input with
        | .answered msg => resolveAnswer words g msg
        | .timeout late =>
          let gt := decCurrentHearts g
          match late with
          | some msg => resolveAnswer words gt msg
          | none => gt
      let g2 :=
        match g1.players[g1.currentPlayerIndex]? with
        | some p =>
          if p.hearts == 0 then
            let ps := g1.players.eraseIdx g1.currentPlayerIndex
            let idx := if ps.length ≤ g1.currentPlayerIndex then 0 else g1.currentPlayerIndex
            { g1 with players := ps, currentPlayerIndex := idx }
          else g1
        | none => g1
      if g2.players.length == 1 && !g2.singleplayer then .ok (gameOver g2)
      else
        let stage := min 7 (g2.plays / 10 + 1)
        if g2.players.length == 0 then .error .zeroDiv
        else
          .ok { g2 with
            stage := stage
            timeRemaining := timeStageRelation stage
            currentStarter := choice (stageStartersRelation words stage)
            currentPlayerIndex := (g2.currentPlayerIndex + 1) % g2.players.length
            responded := false
            response := none }

/-- The `while Game.running` loop of `startGame` (main.py line 140),
driven by a finite list of wait resolutions.  A `gameOver` inside an
iteration is followed by `break` in the source; here the returned state
has `running = false`, which stops the recursion identically.  When the
supplied inputs run out the current state is returned. -/
def startGameLoop (words : List String) (choice : List String → String) :
    Game → List TurnInput → Except RunError Game
  | g, [] => .ok g
  | g, input :: rest =>
    if g.running then
      match loopIter words choice g input with
      | .error e => .error e
      | .ok g2 => if g2.running then startGameLoop words choice g2 rest else .ok g2
    else .ok g

/-- `stopgame` (main.py lines 347-363): `games[interaction.user.id]`
raises KeyError when the requester hosts nothing (the `if not currentGame`
test on line 359 is dead code: a `wordbombGame` instance is always
truthy), modelled as `none`; otherwise the entry is deleted from the
registry and the looked-up game is returned untouched — in particular its
`running` flag is not cleared and `gameOver` is not called. -/
def stopgame (reg : List (Nat × Game)) (userId : Nat) :
    Option (List (Nat × Game) × Game) :=
  match reg.lookup userId with
  | none => none
  | some g => some (reg.filter (fun e => e.1 != userId), g)

/-- Sample dictionary used by the concrete witnesses below. -/
def wordsEx : List String := ["ab", "but"]

/-- Deterministic instantiation of the `random.choice` oracle for the
concrete witnesses: always the first element. -/
def chooseHead (l : List String) : String := l.headD ""

/-- A freshly created session: host 1, channel 5, game id 9. -/
def gInit : Game := wordbombGame.init wordsEx chooseHead 1 5 9

/-- A two-player session with full lives, on host 1's turn. -/
def gActive : Game := { gInit with players := [⟨1, "Owner", 2⟩, ⟨2, "Player", 2⟩] }

/-- A two-player session in which the host is down to 1 heart (reached
from `gActive` by one earlier timeout of player 1), on host 1's turn. -/
def gTwo : Game := { gInit with players := [⟨1, "Owner", 1⟩, ⟨2, "Player", 2⟩] }

/-- A single-player session as the turn loop would receive it after a
countdown started with one roster entry (`singleplayer` set at
main.py lines 200-201). -/
def gSolo : Game := { gInit with singleplayer := true }

/-- A session that already stores an unconsumed response. -/
def gPending : Game := { gInit with responded := true, response := some "old" }

/-- A session whose turn loop has finished (`running` cleared). -/
def gStopped : Game := { gInit with running := false }

/-! ## Helper lemmas -/

theorem lookup_append_of_none (l : List (Nat × Game)) (k : Nat) (x : Game)
    (h : l.lookup k = none) : (l ++ [(k, x)]).lookup k = some x := by
  rw [List.lookup_append, h]
  simp

theorem lookup_isSome_of_mem (reg : List (Nat × Game)) (k : Nat) (x : Game)
    (h : (k, x) ∈ reg) : (reg.lookup k).isSome = true := by
  simp only [List.lookup_isSome_iff]
  exact ⟨(k, x), h, by simp⟩

theorem modifyIdx_getElem?_self (l : List α) (i : Nat) (f : α → α) :
    (modifyIdx l i f)[i]? = (l[i]?).map f := by
  induction l generalizing i with
  | nil => cases i <;> simp [modifyIdx]
  | cons a as ih =>
    cases i with
    | zero => simp [modifyIdx]
    | succ n => simpa [modifyIdx] using ih n

theorem modifyIdx_getElem?_other (l : List α) (i j : Nat) (f : α → α) (h : j ≠ i) :
    (modifyIdx l i f)[j]? = l[j]? := by
  induction l generalizing i j with
  | nil => simp [modifyIdx]
  | cons a as ih =>
    cases i with
    | zero =>
      cases j with
      | zero => exact absurd rfl h
      | succ m => simp [modifyIdx]
    | succ n =>
      cases j with
      | zero => simp [modifyIdx]
      | succ m =>
        simpa [modifyIdx] using ih n m (fun hh => h (by rw [hh]))

theorem answerRejected_eq_false_iff (words : List String) (g : Game) (w : String) :
    answerRejected words g w = false ↔
      (2 ≤ w.length ∧ w ∉ g.used_words ∧
        pyStartsWith w (pyLower g.currentStarter) = true ∧ w ∈ words) := by
  simp only [answerRejected, Bool.or_eq_false_iff, decide_eq_false_iff_not, Nat.not_lt,
    Bool.not_eq_false', List.contains, List.elem_iff, Bool.not_eq_true]
  constructor
  · rintro ⟨⟨⟨h1, h2⟩, h3⟩, h4⟩
    exact ⟨h1, by simpa using h2, h3, by simpa using h4⟩
  · rintro ⟨h1, h2, h3, h4⟩
    exact ⟨⟨⟨h1, by simpa using h2⟩, h3⟩, by simpa using h4⟩

/-! ## Claim theorems -/

/-- Claim C1: for every create request whose room has no registered
session and whose requester hosts no session, `create` succeeds, building
a session whose roster is exactly the host (role Owner, 2 lives) in the
as-constructed (Lobby) flag state — `running = true`, `stage = 1`,
`plays = 0`, `responded = false` — registering it under the host identity
and returning it; with an occupied room it fails `RoomOccupied` and with
an already-hosting host it fails `HostAlreadyHosting`, both leaving the
registry unchanged. -/
theorem C1_create (words : List String) (choice : List String → String)
    (reg : List (Nat × Game)) (uid ch gid : Nat) :
    (reg.any (fun e => e.2.channelID == ch) = false →
      reg.lookup uid = none →
      ∃ g, createGame words choice reg uid ch gid = (.ok g, reg ++ [(uid, g)]) ∧
        (reg ++ [(uid, g)]).lookup uid = some g ∧
        g.players = [{ id := uid, status := "Owner", hearts := 2 }] ∧
        g.userID = uid ∧ g.channelID = ch ∧ g.running = true ∧ g.stage = 1 ∧
        g.plays = 0 ∧ g.responded = false ∧ g.singleplayer = false)
  ∧ (reg.any (fun e => e.2.channelID == ch) = true →
      createGame words choice reg uid ch gid = (.error .roomOccupied, reg))
  ∧ (reg.any (fun e => e.2.channelID == ch) = false →
      reg.lookup uid ≠ none →
      createGame words choice reg uid ch gid = (.error .hostAlreadyHosting, reg)) := by
  refine ⟨?_, ?_, ?_⟩
  · intro h1 h2
    refine ⟨wordbombGame.init words choice uid ch gid, ?_, ?_, rfl, rfl, rfl, rfl, rfl,
      rfl, rfl, rfl⟩
    · simp [createGame, h1, h2]
    · exact lookup_append_of_none reg uid _ h2
  · intro h1
    simp [createGame, h1]
  · intro h1 h2
    have h3 : (reg.lookup uid).isSome = true := Option.ne_none_iff_isSome.mp h2
    simp [createGame, h1, h3]

/-- Witness for C1_create: creating in an empty registry. -/
theorem C1_create_witness :
    ∃ g, createGame wordsEx chooseHead [] 1 5 9 = (.ok g, [] ++ [(1, g)]) ∧
      ([] ++ [(1, g)]).lookup 1 = some g ∧
      g.players = [{ id := 1, status := "Owner", hearts := 2 }] ∧
      g.userID = 1 ∧ g.channelID = 5 ∧ g.running = true ∧ g.stage = 1 ∧
      g.plays = 0 ∧ g.responded = false ∧ g.singleplayer = false :=
  (C1_create wordsEx chooseHead [] 1 5 9).1 rfl rfl

/-- Claim C2: on the answered path with `w` the submitted text lowercased,
the answer is accepted iff `2 ≤ w.length`, `w` is unused, `w` starts with
the (lowercased) current starter, and `w` is a dictionary word; acceptance
adds exactly `w` to the used words and bumps `plays` with the roster (so
also the current player's lives) untouched; rejection decrements exactly
the current player's hearts by 1 and leaves used words and `plays`
untouched. -/
theorem C2_answer_resolution (words : List String) (g : Game) (msg : String)
    (p : Player) (hp : g.players[g.currentPlayerIndex]? = some p) :
    ((2 ≤ (pyLower msg).length ∧ pyLower msg ∉ g.used_words ∧
        pyStartsWith (pyLower msg) (pyLower g.currentStarter) = true ∧
        pyLower msg ∈ words) ↔
      ((resolveAnswer words g msg).used_words = pyLower msg :: g.used_words ∧
        (resolveAnswer words g msg).plays = g.plays + 1 ∧
        (resolveAnswer words g msg).players = g.players))
  ∧ (¬(2 ≤ (pyLower msg).length ∧ pyLower msg ∉ g.used_words ∧
        pyStartsWith (pyLower msg) (pyLower g.currentStarter) = true ∧
        pyLower msg ∈ words) →
      ((resolveAnswer words g msg).used_words = g.used_words ∧
        (resolveAnswer words g msg).plays = g.plays ∧
        (resolveAnswer words g msg).players[g.currentPlayerIndex]? =
          some { p with hearts := p.hearts - 1 } ∧
        ∀ j, j ≠ g.currentPlayerIndex →
          (resolveAnswer words g msg).players[j]? = g.players[j]?)) := by
  by_cases hrej : answerRejected words g (pyLower msg) = true
  · have hnacc : ¬(2 ≤ (pyLower msg).length ∧ pyLower msg ∉ g.used_words ∧
        pyStartsWith (pyLower msg) (pyLower g.currentStarter) = true ∧
        pyLower msg ∈ words) := by
      intro hA
      rw [(answerRejected_eq_false_iff words g (pyLower msg)).mpr hA] at hrej
      exact Bool.false_ne_true hrej
    have hres : resolveAnswer words g msg = decCurrentHearts g := by
      simp [resolveAnswer, hrej]
    rw [hres]
    constructor
    · constructor
      · intro hA
        exact absurd hA hnacc
      · intro hR
        have hu : (decCurrentHearts g).used_words = g.used_words := rfl
        rw [hu] at hR
        exact absurd hR.1.symm (List.cons_ne_self _ _)
    · intro _
      refine ⟨rfl, rfl, ?_, ?_⟩
      · show (modifyIdx g.players g.currentPlayerIndex _)[g.currentPlayerIndex]? = _
        rw [modifyIdx_getElem?_self, hp]
        rfl
      · intro j hj
        exact modifyIdx_getElem?_other g.players g.currentPlayerIndex j _ hj
  · have hrej2 : answerRejected words g (pyLower msg) = false := by
      cases h : answerRejected words g (pyLower msg)
      · rfl
      · exact absurd h hrej
    have hacc := (answerRejected_eq_false_iff words g (pyLower msg)).mp hrej2
    have hres : resolveAnswer words g msg =
        { g with used_words := pyLower msg :: g.used_words, plays := g.plays + 1 } := by
      simp [resolveAnswer, hrej2]
    rw [hres]
    constructor
    · exact ⟨fun _ => ⟨rfl, rfl, rfl⟩, fun _ => hacc⟩
    · intro hn
      exact absurd hacc hn

/-- Witness for C2_answer_resolution: the host answers "AB" on starter
"a" with dictionary word "ab". -/
theorem C2_answer_resolution_witness :
    (resolveAnswer wordsEx gInit "AB").used_words = pyLower "AB" :: gInit.used_words ∧
    (resolveAnswer wordsEx gInit "AB").plays = gInit.plays + 1 ∧
    (resolveAnswer wordsEx gInit "AB").players = gInit.players :=
  ((C2_answer_resolution wordsEx gInit "AB" { id := 1, status := "Owner", hearts := 2 }
    rfl).1).mp (by decide)

/-- Claim C3 refutation (code bug): the host's stop request deletes the
registry entry but leaves the session's `running` flag true and never
calls `gameOver`, so the turn loop's guard still holds and its next
iteration still executes and mutates the session (here: the host loses a
life on a timeout after the game was "stopped"). -/
theorem C3_stop_leaves_loop_running :
    stopgame [(1, gActive)] 1 = some ([], gActive)
  ∧ gActive.running = true
  ∧ (loopIter wordsEx chooseHead gActive (.timeout none)).toOption.map
      (fun g => (g.running, g.players[0]?)) =
      some (true, some { id := 1, status := "Owner", hearts := 1 }) :=
  ⟨rfl, rfl, rfl⟩

/-- Claim C4 refutation (code bug): with dictionary `["ab"]`, the stage-2
entry of `stageStartersRelation` is `"b"` — the character at index 1 of
"ab", a one-character string — which is not the first 2 characters of any
dictionary word of length at least 2; only at stage 1 does the table hold
first characters. -/
theorem C4_starters_not_length_n :
    stageStartersRelation ["ab"] 2 = ["b"]
  ∧ (∀ w ∈ ["ab"], ¬(2 ≤ w.length ∧ pyTake w 2 = "b"))
  ∧ "b".length = 1
  ∧ stageStartersRelation ["ab"] 1 = ["a"] := by
  refine ⟨rfl, ?_, rfl, rfl⟩
  decide

/-- Claim C5 refutation (code bug): on a freshly created session (stage 1,
never started — the Lobby state), both the host's and a non-host's start
request are answered `alreadyStarted` because the guard tests
`stage == 1`, the flag value that means "not yet started"; the countdown
never begins and the non-host never sees `notHost`; moreover the failed
request still sets `singleplayer`. -/
theorem C5_lobby_start_rejected :
    gInit.stage = 1 ∧ gInit.plays = 0
  ∧ (startGameCountdownStep gInit 1).2 = .alreadyStarted
  ∧ (startGameCountdownStep gInit 2).2 = .alreadyStarted
  ∧ (startGameCountdownStep gInit 2).1.singleplayer = true :=
  ⟨rfl, rfl, rfl, rfl, rfl⟩

/-- Claim C6 refutation (code bug): when the timer expires while the
current player holds 1 heart and that player's (invalid) message arrives
inside the timeout window — between the expiry at line 152 and the
`if Game.responded` check at line 158, which the awaits at lines 154-155
make possible — both the timeout and the rejection decrement apply: the
player ends the turn with −1 hearts and, since the removal test is
`hearts == 0`, stays in the roster. -/
theorem C6_negative_lives :
    (loopIter wordsEx chooseHead gTwo (.timeout (some "zz"))).toOption.bind
      (fun g => g.players[0]?) =
      some { id := 1, status := "Owner", hearts := -1 } :=
  rfl

/-- Claim C7 counterexample: a session already storing an unconsumed
response (`responded = true`, `response = some "old"`) still stores a new
message from the current player — the state changes and the pending
answer is overwritten — whereas the claim says a message arriving while
an answer is already pending leaves the session unchanged. -/
theorem C7_counterexample :
    gPending.responded = true ∧ gPending.response = some "old"
  ∧ onMessageGame gPending 5 1 "later" ≠ gPending
  ∧ (onMessageGame gPending 5 1 "later").response = some "later" := by
  refine ⟨rfl, rfl, ?_, rfl⟩
  decide

/-- Claim C7 as amended: a chat message is stored as the pending answer
iff it is in the session's channel and its sender is the roster entry at
`currentPlayerIndex` (the separate roster-membership test is subsumed by
that); the session's phase and a previously stored answer are not
consulted — a matching message always (over)writes `response`; any other
message leaves the session unchanged. -/
theorem C7_message_capture (g : Game) (ch a : Nat) (c : String) :
    (g.channelID = ch → (∃ p, g.players[g.currentPlayerIndex]? = some p ∧ p.id = a) →
      onMessageGame g ch a c = { g with responded := true, response := some c })
  ∧ ((g.channelID ≠ ch ∨ ∀ p, g.players[g.currentPlayerIndex]? = some p → p.id ≠ a) →
      onMessageGame g ch a c = g) := by
  constructor
  · rintro hch ⟨p, hp, hpid⟩
    have hmem : p ∈ g.players := List.getElem?_mem hp
    have hany : g.players.any (fun q => q.id == a) = true := by
      rw [List.any_eq_true]
      exact ⟨p, hmem, by simp [hpid]⟩
    simp [onMessageGame, hch, hany, hp, hpid]
  · intro hcase
    rcases hcase with hch | hcur
    · have hb : (g.channelID == ch) = false := by simp [hch]
      simp [onMessageGame, hb]
    · cases hch : (g.channelID == ch) with
      | false => simp [onMessageGame, hch]
      | true =>
        cases hany : g.players.any (fun q => q.id == a) with
        | false => simp [onMessageGame, hch, hany]
        | true =>
          cases hget : g.players[g.currentPlayerIndex]? with
          | none => simp [onMessageGame, hch, hany, hget]
          | some p =>
            have hne : (p.id == a) = false := by
              simpa using hcur p hget
            simp [onMessageGame, hch, hany, hget, hne]

/-- Witness for C7_message_capture: overwriting a pending answer. -/
theorem C7_message_capture_witness :
    onMessageGame gPending 5 1 "fresh" =
      { gPending with responded := true, response := some "fresh" } :=
  (C7_message_capture gPending 5 1 "fresh").1 rfl
    ⟨{ id := 1, status := "Owner", hearts := 2 }, rfl, rfl⟩

/-- Claim C8 refutation (code bug): in a single-player session the sole
player's second consecutive timeout empties the roster inside the
iteration, the win check does not fire (`singleplayer` is set), and the
advance step evaluates `(currentPlayerIndex + 1) % len(players)` with an
empty roster — ZeroDivisionError; the empty-roster guard sits at the top
of the next iteration and is never reached. -/
theorem C8_zero_division :
    startGameLoop wordsEx chooseHead gSolo [.timeout none, .timeout none] =
      .error .zeroDiv :=
  rfl

/-- Claim C9 counterexample: a session finalized by `gameOver` (running
false) is still registered — `gameOver` never touches the `games` dict —
so a create for the same room still fails `RoomOccupied` and a create by
the same host still fails `HostAlreadyHosting`, whereas the claim says
finalization releases the session and unblocks both. -/
theorem C9_counterexample :
    (gameOver gInit).running = false
  ∧ (createGame wordsEx chooseHead [(1, gameOver gInit)] 2 5 10).1 = .error .roomOccupied
  ∧ (createGame wordsEx chooseHead [(1, gameOver gInit)] 2 5 10).2 = [(1, gameOver gInit)]
  ∧ (createGame wordsEx chooseHead [(1, gameOver gInit)] 1 6 11).1 =
      .error .hostAlreadyHosting :=
  ⟨rfl, rfl, rfl, rfl⟩

/-- Claim C9 as amended: after `gameOver` the session's `running` flag is
false and the turn loop performs no further iterations, but the registry
does not release it: whatever registry holds the finalized session keeps
its entry after the loop (the loop never touches the registry), its room
keeps failing creates with `RoomOccupied`, and its host keeps failing
creates with `HostAlreadyHosting`, until the stop command deletes the
entry. -/
theorem C9_finalize_no_release (words : List String) (choice : List String → String)
    (g : Game) (reg : List (Nat × Game)) (uid uid2 ch2 gid2 : Nat)
    (hmem : (uid, gameOver g) ∈ reg) :
    (gameOver g).running = false
  ∧ (∀ inputs, startGameLoop words choice (gameOver g) inputs = .ok (gameOver g))
  ∧ (ch2 = g.channelID →
      createGame words choice reg uid2 ch2 gid2 = (.error .roomOccupied, reg))
  ∧ (uid2 = uid → reg.any (fun e => e.2.channelID == ch2) = false →
      createGame words choice reg uid2 ch2 gid2 = (.error .hostAlreadyHosting, reg)) := by
  refine ⟨rfl, ?_, ?_, ?_⟩
  · intro inputs
    cases inputs with
    | nil => rfl
    | cons i rest => simp [startGameLoop, gameOver]
  · intro hch
    have hany : reg.any (fun e => e.2.channelID == ch2) = true := by
      rw [List.any_eq_true]
      exact ⟨(uid, gameOver g), hmem, by simp [gameOver, hch]⟩
    simp [createGame, hany]
  · intro huid hany
    have hsome : (reg.lookup uid2).isSome = true := by
      rw [huid]
      exact lookup_isSome_of_mem reg uid (gameOver g) hmem
    simp [createGame, hany, hsome]

/-- Witness for C9_finalize_no_release: a singleton registry holding a
finalized session still blocks its room. -/
theorem C9_finalize_no_release_witness :
    (gameOver gInit).running = false
  ∧ createGame wordsEx chooseHead [(1, gameOver gInit)] 2 5 10 =
      (.error .roomOccupied, [(1, gameOver gInit)]) :=
  ⟨(C9_finalize_no_release wordsEx chooseHead gInit [(1, gameOver gInit)] 1 2 5 10
      (by simp)).1,
   (C9_finalize_no_release wordsEx chooseHead gInit [(1, gameOver gInit)] 1 2 5 10
      (by simp)).2.2.1 rfl⟩

/-- Claim C10: for any session state whatsoever — no phase, `running`, or
stage condition is consulted — a join by an identity not in the roster
appends a new participant (status "Player") with exactly 2 hearts at the
end of the roster, leaving every existing entry unchanged (the old roster
is an unchanged initial segment of the new one). -/
theorem C10_join_any_phase (g : Game) (uid : Nat)
    (h : ∀ p ∈ g.players, p.id ≠ uid) :
    joinGameStep g uid =
      ({ g with players := g.players ++ [Player.new uid "Player"] }, .joined)
  ∧ (Player.new uid "Player").hearts = 2
  ∧ (Player.new uid "Player").status = "Player"
  ∧ (g.players ++ [Player.new uid "Player"]).take g.players.length = g.players := by
  have hany : g.players.any (fun p => p.id == uid) = false := by
    rw [List.any_eq_false]
    intro p hp
    simp [h p hp]
  refine ⟨by simp [joinGameStep, hany], rfl, rfl, ?_⟩
  exact List.take_left g.players _

/-- Witness for C10_join_any_phase: joining a finished session (its turn
loop over, `running = false`) still appends the new player. -/
theorem C10_join_any_phase_witness :
    joinGameStep gStopped 3 =
      ({ gStopped with players := gStopped.players ++ [Player.new 3 "Player"] }, .joined) :=
  (C10_join_any_phase gStopped 3 (by decide)).1

end Wordbomb
